import Mathlib

/-
Shallow embedding of the HildonTouchSelector widget
(src/hildon/hildon-gtk.h, second compilation unit: the
hildon-touch-selector implementation).

Modelling conventions:
 - A GtkTreeModel is a list of rows; the text of a row is its first
   field, so a model is a `List String` and a GtkTreeIter / GtkTreePath
   is a row index (`Nat`).
 - A column's GtkTreeSelection is the pair of its GtkSelectionMode and
   the set of selected row indices; GTK iterates selected rows in tree
   order, so `selectedInOrder` sorts by row index.
 - `gchar *` results that may be NULL are `Option String`; g_strconcat
   returns NULL when its first argument is NULL, which the embedding
   keeps (`g_strconcat2`).
 - A `g_return_if_fail` guard that fails is an early return with the
   documented default; an out-of-range `g_slist_nth_data` lookup whose
   NULL result the C code dereferences is modelled as `none` (a crash).
 - The GUI-only effects (renderer attributes, pannable-area geometry,
   actual scrolling coordinates) are outside the selection state; the
   centering callback is modelled by the list of (column, row) pairs it
   scrolls to.
-/

inductive GtkSelectionMode where
  | single
  | browse
  | multiple
deriving DecidableEq

inductive HildonTouchSelectorSelectionMode where
  | single
  | multiple
deriving DecidableEq

/-- One element of `priv->columns` (struct _SelectorColumn): its model, the
selection mode of its tree view's GtkTreeSelection, and the selected rows. -/
structure SelectorColumn where
  model : List String
  smode : GtkSelectionMode
  selected : List Nat
deriving DecidableEq

/-- The selector state (struct _HildonTouchSelectorPrivate): the ordered
column list and the optional user print function (NULL means the default
one is used). The print function receives the selector's columns. -/
structure HildonTouchSelector where
  columns : List SelectorColumn
  print_func : Option (List SelectorColumn → Option String)

/-- hildon_touch_selector_get_num_columns: g_slist_length of the columns. -/
def hildon_touch_selector_get_num_columns (selector : HildonTouchSelector) : Nat :=
  selector.columns.length

/-- hildon_touch_selector_get_column_selection_mode: guarded by
num_columns > 0 (returning SINGLE, the initialised default, when the guard
fails); reads the tree-view selection mode of column 0 and maps
GTK_SELECTION_MULTIPLE to MULTIPLE, everything else to SINGLE. -/
def hildon_touch_selector_get_column_selection_mode
    (selector : HildonTouchSelector) : HildonTouchSelectorSelectionMode :=
  match selector.columns with
  | [] => .single
  | column :: _ =>
    if column.smode = GtkSelectionMode.multiple then .multiple else .single

/-- The selected rows of a column in tree (view-iteration) order, as
gtk_tree_selection_get_selected_rows yields them. -/
def selectedInOrder (column : SelectorColumn) : List Nat :=
  (List.range column.model.length).filter (fun k => column.selected.contains k)

/-- gtk_tree_selection_get_selected on one column: fails (g_return) in
GTK_SELECTION_MULTIPLE mode, otherwise yields the selected row if any. -/
def gtk_tree_selection_get_selected (column : SelectorColumn) : Option Nat :=
  if column.smode = GtkSelectionMode.multiple then none
  else (selectedInOrder column).head?

/-- hildon_touch_selector_get_selected_rows: guard column < num_columns
(NULL on failure), then the column's selected rows in tree order. -/
def hildon_touch_selector_get_selected_rows
    (selector : HildonTouchSelector) (column : Nat) : Option (List Nat) :=
  match selector.columns.get? column with
  | some c => some (selectedInOrder c)
  | none => none

/-- hildon_touch_selector_get_model: guard column < num_columns (NULL on
failure), then the column's model. -/
def hildon_touch_selector_get_model
    (selector : HildonTouchSelector) (column : Nat) : Option (List String) :=
  match selector.columns.get? column with
  | some c => some c.model
  | none => none

/-- hildon_touch_selector_get_active_iter: guarded by the selector-level
selection mode (read from column 0) being SINGLE and by
column < num_columns, then gtk_tree_selection_get_selected on the column. -/
def hildon_touch_selector_get_active_iter
    (selector : HildonTouchSelector) (column : Nat) : Option Nat :=
  if hildon_touch_selector_get_column_selection_mode selector =
      HildonTouchSelectorSelectionMode.single then
    match selector.columns.get? column with
    | some c => gtk_tree_selection_get_selected c
    | none => none
  else none

/-- g_strconcat with a possibly-NULL first argument: GLib returns NULL
when string1 is NULL, so a NULL accumulator absorbs everything after it. -/
def g_strconcat2 (a : Option String) (b : String) : Option String :=
  match a with
  | none => none
  | some a => some (a ++ b)

/-- The comma loop of _default_print_func over the first column's selected
strings: every item but the last is followed by a comma. -/
def commaJoin : List String → String
  | [] => ""
  | [v] => v
  | v :: rest => v ++ "," ++ commaJoin rest

/-- The text of row k of column i (first model field), as the
gtk_tree_model_get calls of _default_print_func read it. -/
def column_text (selector : HildonTouchSelector) (i k : Nat) : String :=
  ((hildon_touch_selector_get_model selector i).getD []).getD k ""

/-- The loop indices i, i+1, ..., i+n-1 of a C `for` loop. -/
def colIndices : Nat → Nat → List Nat
  | _, 0 => []
  | lo, n + 1 => lo :: colIndices (lo + 1) n

/-- One iteration of the second loop of _default_print_func: a column with
an active iter contributes its text, prefixed by a colon when i != 0
(through g_strconcat, so a NULL accumulator stays NULL); at i == 0 the
accumulator is replaced by the text; a column without an active iter
leaves the accumulator alone. -/
def printLoopStep (selector : HildonTouchSelector)
    (acc : Option String) (i : Nat) : Option String :=
  match hildon_touch_selector_get_active_iter selector i with
  | some k =>
    if i ≠ 0 then g_strconcat2 acc (":" ++ column_text selector i k)
    else some (column_text selector i k)
  | none => acc

/-- The strings of the selected rows of column 0, in tree order: what the
multiple-selection branch of _default_print_func comma-joins. -/
def selected_texts (selector : HildonTouchSelector) : List String :=
  ((hildon_touch_selector_get_selected_rows selector 0).getD []).map
    (fun r => ((hildon_touch_selector_get_model selector 0).getD []).getD r "")

/-- _default_print_func: in MULTIPLE mode with at least one column, the
first column's selected strings comma-joined inside parentheses seed the
accumulator and the second loop starts at column 1; otherwise the
accumulator starts as NULL and the loop starts at column 0. -/
def _default_print_func (selector : HildonTouchSelector) : Option String :=
  if hildon_touch_selector_get_column_selection_mode selector =
      HildonTouchSelectorSelectionMode.multiple ∧
      0 < hildon_touch_selector_get_num_columns selector then
    (colIndices 1 (hildon_touch_selector_get_num_columns selector - 1)).foldl
      (printLoopStep selector)
      (some ("(" ++ commaJoin (selected_texts selector) ++ ")"))
  else
    (colIndices 0 (hildon_touch_selector_get_num_columns selector)).foldl
      (printLoopStep selector) none

/-- hildon_touch_selector_get_current_text: the user print function when
set, the default one otherwise. -/
def hildon_touch_selector_get_current_text
    (selector : HildonTouchSelector) : Option String :=
  match selector.print_func with
  | some f => f selector.columns
  | none => _default_print_func selector

/-- _hildon_touch_selector_has_multiple_selection: more than one column,
or selection mode MULTIPLE. -/
def _hildon_touch_selector_has_multiple_selection
    (selector : HildonTouchSelector) : Bool :=
  decide (1 < hildon_touch_selector_get_num_columns selector) ||
    decide (hildon_touch_selector_get_column_selection_mode selector =
      HildonTouchSelectorSelectionMode.multiple)

/-- hildon_touch_selector_has_multiple_selection: dispatches through the
class vtable, whose slot the class_init sets to the private function. -/
def hildon_touch_selector_has_multiple_selection
    (selector : HildonTouchSelector) : Bool :=
  _hildon_touch_selector_has_multiple_selection selector

/-- _create_new_column: the tree selection starts in GTK_SELECTION_BROWSE
mode and the first row is selected when the model is non-empty. -/
def _create_new_column (model : List String) : SelectorColumn :=
  { model := model
    smode := GtkSelectionMode.browse
    selected := if model.isEmpty then [] else [0] }

/-- hildon_touch_selector_new: an empty selector, NULL print function. -/
def hildon_touch_selector_new : HildonTouchSelector :=
  { columns := [], print_func := none }

/-- hildon_touch_selector_append_column: builds a column from the model
and appends it to the column list. (The NULL-model failure path cannot
arise in the embedding, where a model value always exists.) -/
def hildon_touch_selector_append_column (selector : HildonTouchSelector)
    (model : List String) : HildonTouchSelector × Bool :=
  ({ selector with columns := selector.columns ++ [_create_new_column model] }, true)

/-- hildon_touch_selector_append_text_column: a text renderer bound to
model field 0, then append_column; renderer centering is presentation
only and outside the selection state. -/
def hildon_touch_selector_append_text_column (selector : HildonTouchSelector)
    (model : List String) : HildonTouchSelector × Bool :=
  hildon_touch_selector_append_column selector model

/-- hildon_touch_selector_new_text: an empty selector holding one text
column over a freshly created empty list store. -/
def hildon_touch_selector_new_text : HildonTouchSelector :=
  (hildon_touch_selector_append_text_column hildon_touch_selector_new []).1

/-- Appending one column per model in order, as a test driver would. -/
def append_many (selector : HildonTouchSelector) :
    List (List String) → HildonTouchSelector
  | [] => selector
  | m :: ms => append_many (hildon_touch_selector_append_column selector m).1 ms

/-- hildon_touch_selector_remove_column: the only guard is
column < num_columns (gint comparison, FALSE on failure); then
g_slist_nth_data is called with the index cast to guint, and the result
is dereferenced unconditionally. A negative index passes the guard, the
guint cast turns it into a huge offset, nth_data yields NULL and the
dereference crashes: modelled as `none`. An in-range index removes the
column through gtk_container_remove / hildon_touch_selector_remove,
which drops exactly that element of the list. -/
def hildon_touch_selector_remove_column (selector : HildonTouchSelector)
    (column : Int) : Option (HildonTouchSelector × Bool) :=
  if column ≥ (hildon_touch_selector_get_num_columns selector : Int) then
    some (selector, false)
  else
    let idx : Nat := (column % 4294967296).toNat
    match selector.columns.get? idx with
    | some _ =>
      some ({ selector with columns := selector.columns.eraseIdx idx }, true)
    | none => none

/-- modeToGtk: the switch of hildon_touch_selector_set_column_selection_mode. -/
def modeToGtk : HildonTouchSelectorSelectionMode → GtkSelectionMode
  | .single => GtkSelectionMode.single
  | .multiple => GtkSelectionMode.multiple

/-- hildon_touch_selector_set_column_selection_mode: guarded by
num_columns > 0 (no-op on failure); sets the tree-view selection mode of
column 0 only, then unselects everything in column 0 and re-selects its
first row (when the model has one; with an empty model
gtk_tree_model_get_iter_first fails and the select call selects
nothing). Columns other than 0 are never touched. -/
def hildon_touch_selector_set_column_selection_mode
    (selector : HildonTouchSelector) (mode : HildonTouchSelectorSelectionMode) :
    HildonTouchSelector :=
  match selector.columns with
  | [] => selector
  | c :: rest =>
    { selector with
      columns :=
        { c with
          smode := modeToGtk mode
          selected := if c.model.isEmpty then [] else [0] } :: rest }

/-- hildon_touch_selector_set_active_iter: guarded by
column < num_columns (no-op on failure); gtk_tree_selection_select_iter
plus gtk_tree_view_set_cursor leave the row as the single selected row
of the column. The optional scroll is presentation only. -/
def hildon_touch_selector_set_active_iter (selector : HildonTouchSelector)
    (column : Nat) (row : Nat) : HildonTouchSelector :=
  match selector.columns.get? column with
  | none => selector
  | some c =>
    { selector with
      columns := selector.columns.set column { c with selected := [row] } }

/-- The column walk of _hildon_touch_selector_center_on_selected_items:
at i == 0 in MULTIPLE mode the loop breaks (so nothing at all is
scrolled); otherwise every column whose get_active_iter succeeds is
scrolled to its active row. The result lists the (column, row) pairs
scrolled to. -/
def centerWalk (selector : HildonTouchSelector)
    (mode : HildonTouchSelectorSelectionMode) :
    Nat → List SelectorColumn → List (Nat × Nat)
  | _, [] => []
  | i, _ :: rest =>
    if i = 0 ∧ mode = HildonTouchSelectorSelectionMode.multiple then []
    else
      match hildon_touch_selector_get_active_iter selector i with
      | some k => (i, k) :: centerWalk selector mode (i + 1) rest
      | none => centerWalk selector mode (i + 1) rest

/-- _hildon_touch_selector_center_on_selected_items: reads the selection
mode once, then walks the columns from index 0. -/
def _hildon_touch_selector_center_on_selected_items
    (selector : HildonTouchSelector) : List (Nat × Nat) :=
  centerWalk selector
    (hildon_touch_selector_get_column_selection_mode selector) 0 selector.columns

/-- CENTER_ON_SELECTED_ITEM_DELAY: the timeout (ms) that
hildon_touch_selector_map passes to g_timeout_add. -/
def CENTER_ON_SELECTED_ITEM_DELAY : Nat := 50

/-- The timeout source firing: hildon_touch_selector_map registers the
callback with g_timeout_add, storing neither the source id nor a
reference, and nothing ever removes the source; the callback body casts
its data pointer and walks the selector without any liveness check. So
when it fires on a live selector (`some`) it performs the centering
walk, and when the selector was already destroyed (`none`, a dangling
pointer) it dereferences freed memory: undefined behaviour, modelled as
`none`, not a safe no-op. -/
def g_timeout_callback_fires (data : Option HildonTouchSelector) :
    Option (List (Nat × Nat)) :=
  match data with
  | some selector => some (_hildon_touch_selector_center_on_selected_items selector)
  | none => none

/-- The colon join described by the spec for the default formatter: the
contributed values with a single colon between consecutive ones. -/
def colonJoin : List String → String
  | [] => ""
  | [v] => v
  | v :: rest => v ++ ":" ++ colonJoin rest

/-- The active value of a column, if any: the text of the row that
get_active_iter yields. -/
def activeValue (selector : HildonTouchSelector) (i : Nat) : Option String :=
  match hildon_touch_selector_get_active_iter selector i with
  | some k => some (column_text selector i k)
  | none => none

/-- The active values of columns i, i+1, ..., i+n-1, skipping columns
without one. -/
def activeValuesFrom (selector : HildonTouchSelector) : Nat → Nat → List String
  | _, 0 => []
  | lo, n + 1 =>
    match activeValue selector lo with
    | some v => v :: activeValuesFrom selector (lo + 1) n
    | none => activeValuesFrom selector (lo + 1) n

/-- The active values of all columns, in column order. -/
def activeValues (selector : HildonTouchSelector) : List String :=
  activeValuesFrom selector 0 (hildon_touch_selector_get_num_columns selector)

/-- What the second loop of _default_print_func appends after the
accumulator once it is non-NULL: a colon and the text for every active
column among lo, ..., lo+n-1, nothing for the others. -/
def colonTailIdx (selector : HildonTouchSelector) : Nat → Nat → String
  | _, 0 => ""
  | lo, n + 1 =>
    (match activeValue selector lo with
     | some v => ":" ++ v
     | none => "") ++ colonTailIdx selector (lo + 1) n

/-- Modelled from the spec's words (section 4.3 and claim C1): the output
the specification describes for the default formatter. In
multiple-selection mode with at least one column, the first column's
selected values comma-joined inside parentheses, followed by a colon and
the value of each remaining column that has an active value; otherwise
the active values of all columns joined by colons. Compared against
_default_print_func, which is translated from the C. -/
def spec_described_output (selector : HildonTouchSelector) : String :=
  if hildon_touch_selector_get_column_selection_mode selector =
      HildonTouchSelectorSelectionMode.multiple ∧
      0 < hildon_touch_selector_get_num_columns selector then
    "(" ++ commaJoin (selected_texts selector) ++ ")" ++
      String.join
        ((activeValuesFrom selector 1
            (hildon_touch_selector_get_num_columns selector - 1)).map
          (fun v => ":" ++ v))
  else
    colonJoin (activeValues selector)

/-- The scroll target a column contributes when its get_active_iter
succeeds. -/
def centerPair (selector : HildonTouchSelector) (i : Nat) : Option (Nat × Nat) :=
  match hildon_touch_selector_get_active_iter selector i with
  | some k => some (i, k)
  | none => none

/-- The centering the spec describes for single mode: every column with
an active selection is scrolled to it. -/
def centerSpecList (selector : HildonTouchSelector) : List (Nat × Nat) :=
  (colIndices 0 (hildon_touch_selector_get_num_columns selector)).filterMap
    (centerPair selector)

/-- No two consecutive colons in a character list. -/
def noDoubledColon : List Char → Bool
  | a :: b :: t => (!(a == ':' && b == ':')) && noDoubledColon (b :: t)
  | _ => true

/-- Separator cleanliness of an output string: no doubled colon, and no
leading or trailing colon. -/
def separatorClean (s : String) : Bool :=
  noDoubledColon s.data && (s.data.head? != some ':') && (s.data.getLast? != some ':')

/-- A single-column, single-mode selector with rows Alice and Bob, active
row Bob (claim C1's first round-trip example). -/
def sBob : HildonTouchSelector := ⟨[⟨["Alice", "Bob"], .browse, [1]⟩], none⟩

/-- A two-column single-mode selector with active values Red and Large
(claim C1's second round-trip example). -/
def sRedLarge : HildonTouchSelector :=
  ⟨[⟨["Red"], .browse, [0]⟩, ⟨["Large"], .browse, [0]⟩], none⟩

/-- A single-column multiple-mode selector with rows A, B, C all selected
(claim C1's third round-trip example). -/
def sABC : HildonTouchSelector := ⟨[⟨["A", "B", "C"], .multiple, [0, 1, 2]⟩], none⟩

/-- A single-mode selector whose column 0 has no active selection (its
model is empty, as hildon_touch_selector_new_text leaves it) while
column 1 has active value B. -/
def sGapZero : HildonTouchSelector :=
  ⟨[⟨[], .browse, []⟩, ⟨["B"], .browse, [0]⟩], none⟩

/-- A three-column single-mode selector with a gap at column 0 and active
values B and C in columns 1 and 2. -/
def sGapThree : HildonTouchSelector :=
  ⟨[⟨[], .browse, []⟩, ⟨["B"], .browse, [0]⟩, ⟨["C"], .browse, [0]⟩], none⟩

/-- A three-column single-mode selector with active values A and B and a
gap at column 2 (used for claim C3's witness). -/
def sMidGap : HildonTouchSelector :=
  ⟨[⟨["A"], .browse, [0]⟩, ⟨["B"], .browse, [0]⟩, ⟨["C"], .browse, []⟩], none⟩

/-- A two-column selector whose columns are both in single mode (used for
claim C4's counterexample and claim C10's witness). -/
def sTwoSingle : HildonTouchSelector :=
  ⟨[⟨["A"], .single, [0]⟩, ⟨["B"], .single, [0]⟩], none⟩

/-- A multiple-mode selector whose column 1 has exactly one selected row
(used for claim C5's counterexample). -/
def sMultiTwo : HildonTouchSelector :=
  ⟨[⟨["A"], .multiple, [0]⟩, ⟨["B"], .browse, [0]⟩], none⟩

/-- A one-column selector (used for claim C7's failing input). -/
def sOneCol : HildonTouchSelector := ⟨[⟨["A"], .browse, [0]⟩], none⟩

/-- A mapped one-column selector with a selected row, the state the
centering timeout callback captures (used for claim C9). -/
def sMapped : HildonTouchSelector := ⟨[⟨["X", "Y"], .browse, [1]⟩], none⟩

/-- A one-column selector with two rows, row 0 active (used for claim
C8's witness). -/
def sAliceBob : HildonTouchSelector := ⟨[⟨["Alice", "Bob"], .browse, [0]⟩], none⟩

theorem list_mem_of_head? {α : Type} {l : List α} {a : α}
    (h : l.head? = some a) : a ∈ l := by
  cases l with
  | nil => simp at h
  | cons b t =>
    simp [List.head?] at h
    simp [h]

theorem list_mem_of_getLast? {α : Type} {l : List α} {a : α}
    (h : l.getLast? = some a) : a ∈ l := by
  induction l with
  | nil => simp at h
  | cons b t ih =>
    cases t with
    | nil =>
      simp [List.getLast?] at h
      simp [h]
    | cons c t2 =>
      rw [show (b :: c :: t2).getLast? = (c :: t2).getLast? from List.getLast?_cons_cons] at h
      exact List.mem_cons_of_mem _ (ih h)

theorem list_head?_append_left {α : Type} (l₁ l₂ : List α) (h : l₁ ≠ []) :
    (l₁ ++ l₂).head? = l₁.head? := by
  cases l₁ with
  | nil => exact absurd rfl h
  | cons a t => rfl

theorem list_getLast?_cons_of_ne_nil {α : Type} (a : α) (l : List α) (h : l ≠ []) :
    (a :: l).getLast? = l.getLast? := by
  cases l with
  | nil => exact absurd rfl h
  | cons b t => exact List.getLast?_cons_cons

theorem list_getLast?_append_right {α : Type} (l₁ l₂ : List α) (h : l₂ ≠ []) :
    (l₁ ++ l₂).getLast? = l₂.getLast? := by
  induction l₁ with
  | nil => rfl
  | cons a t ih =>
    have hne : t ++ l₂ ≠ [] := by
      intro hc
      rcases List.append_eq_nil.mp hc with ⟨_, h2⟩
      exact h h2
    rw [List.cons_append, list_getLast?_cons_of_ne_nil a (t ++ l₂) hne, ih]

theorem noDoubledColon_of_no_colon : ∀ l : List Char, ':' ∉ l → noDoubledColon l = true := by
  intro l h
  induction l with
  | nil => rfl
  | cons a t ih =>
    cases t with
    | nil => rfl
    | cons b t2 =>
      have ha : ¬(a = ':') := fun hc => h (by simp [hc])
      have hrest : ':' ∉ b :: t2 := fun hc => h (List.mem_cons_of_mem _ hc)
      simp [noDoubledColon, ih hrest, ha]

theorem noDoubledColon_colon_cons (d : List Char) (hd : noDoubledColon d = true)
    (hh : d.head? ≠ some ':') : noDoubledColon (':' :: d) = true := by
  cases d with
  | nil => rfl
  | cons b t =>
    have hb : ¬(b = ':') := by
      intro hc
      exact hh (by simp [List.head?, hc])
    simp [noDoubledColon, hb, hd]

theorem noDoubledColon_append (v d : List Char) (hv : ':' ∉ v)
    (hd : noDoubledColon d = true) (hh : d.head? ≠ some ':') :
    noDoubledColon (v ++ ':' :: d) = true := by
  induction v with
  | nil => exact noDoubledColon_colon_cons d hd hh
  | cons a v ih =>
    have ha : ¬(a = ':') := fun hc => hv (by simp [hc])
    have hv2 : ':' ∉ v := fun hc => hv (List.mem_cons_of_mem _ hc)
    have htail := ih hv2
    cases v with
    | nil =>
      show noDoubledColon (a :: ':' :: d) = true
      simp only [noDoubledColon]
      simp [ha]
      simpa using htail
    | cons b v2 =>
      show noDoubledColon (a :: b :: (v2 ++ ':' :: d)) = true
      simp only [noDoubledColon]
      rw [show (b :: v2) ++ ':' :: d = b :: (v2 ++ ':' :: d) from rfl] at htail
      simp [ha, htail]

theorem string_data_ne_nil (v : String) (h : v ≠ "") : v.data ≠ [] := by
  intro hc
  apply h
  cases v
  simp at hc
  subst hc
  rfl

theorem colonJoin_data_ne_nil : ∀ (t : List String) (v : String), v ≠ "" →
    (colonJoin (v :: t)).data ≠ [] := by
  intro t v h
  cases t with
  | nil => exact string_data_ne_nil v h
  | cons w t2 =>
    show (v ++ ":" ++ colonJoin (w :: t2)).data ≠ []
    simp [String.data_append]

theorem separatorClean_colonJoin :
    ∀ vs : List String, (∀ v ∈ vs, v ≠ "" ∧ ':' ∉ v.data) →
      noDoubledColon (colonJoin vs).data = true ∧
      (colonJoin vs).data.head? ≠ some ':' ∧
      (colonJoin vs).data.getLast? ≠ some ':' := by
  intro vs h
  induction vs with
  | nil => exact ⟨rfl, by simp [colonJoin], by simp [colonJoin]⟩
  | cons v t ih =>
    have hv := h v (by simp)
    cases t with
    | nil =>
      refine ⟨noDoubledColon_of_no_colon _ hv.2, ?_, ?_⟩
      · intro hc
        exact hv.2 (list_mem_of_head? hc)
      · intro hc
        exact hv.2 (list_mem_of_getLast? hc)
    | cons w t2 =>
      have hw := h w (by simp)
      obtain ⟨ihn, ihh, ihl⟩ := ih (fun x hx => h x (List.mem_cons_of_mem _ hx))
      have hdata : (colonJoin (v :: w :: t2)).data =
          v.data ++ ':' :: (colonJoin (w :: t2)).data := by
        show (v ++ ":" ++ colonJoin (w :: t2)).data = _
        simp [String.data_append]
      refine ⟨?_, ?_, ?_⟩
      · rw [hdata]
        exact noDoubledColon_append _ _ hv.2 ihn ihh
      · rw [hdata, list_head?_append_left _ _ (string_data_ne_nil v hv.1)]
        intro hc
        exact hv.2 (list_mem_of_head? hc)
      · rw [hdata, list_getLast?_append_right _ _ (by simp),
          list_getLast?_cons_of_ne_nil _ _ (colonJoin_data_ne_nil t2 w hw.1)]
        exact ihl

theorem getActiveIter_of_multiple (s : HildonTouchSelector)
    (h : hildon_touch_selector_get_column_selection_mode s =
      HildonTouchSelectorSelectionMode.multiple) (i : Nat) :
    hildon_touch_selector_get_active_iter s i = none := by
  unfold hildon_touch_selector_get_active_iter
  rw [h]
  simp

theorem getActiveIter_some_imp_lt (s : HildonTouchSelector) (col k : Nat)
    (h : hildon_touch_selector_get_active_iter s col = some k) :
    col < s.columns.length := by
  unfold hildon_touch_selector_get_active_iter at h
  by_cases hm : hildon_touch_selector_get_column_selection_mode s =
      HildonTouchSelectorSelectionMode.single
  · rw [if_pos hm] at h
    cases hc : s.columns.get? col with
    | none => rw [hc] at h; exact absurd h (by simp)
    | some c =>
      obtain ⟨hlt, _⟩ := List.get?_eq_some.mp hc
      exact hlt
  · rw [if_neg hm] at h
    exact absurd h (by simp)

theorem foldl_printLoopStep_none (s : HildonTouchSelector) :
    ∀ n lo : Nat, 0 < lo →
      (colIndices lo n).foldl (printLoopStep s) none = none := by
  intro n
  induction n with
  | zero => intro lo _; rfl
  | succ n ih =>
    intro lo hlo
    show ((lo :: colIndices (lo + 1) n).foldl (printLoopStep s) none) = none
    rw [List.foldl_cons]
    have hstep : printLoopStep s none lo = none := by
      cases h : hildon_touch_selector_get_active_iter s lo with
      | none => simp [printLoopStep, h]
      | some k => simp [printLoopStep, h, hlo.ne', g_strconcat2]
    rw [hstep]
    exact ih (lo + 1) (Nat.succ_pos lo)

theorem foldl_printLoopStep_some (s : HildonTouchSelector) :
    ∀ (n lo : Nat) (a : String), 0 < lo →
      (colIndices lo n).foldl (printLoopStep s) (some a) =
        some (a ++ colonTailIdx s lo n) := by
  intro n
  induction n with
  | zero =>
    intro lo a _
    show some a = some (a ++ colonTailIdx s lo 0)
    rw [show colonTailIdx s lo 0 = "" from rfl, String.append_empty]
  | succ n ih =>
    intro lo a hlo
    show ((lo :: colIndices (lo + 1) n).foldl (printLoopStep s) (some a)) = _
    rw [List.foldl_cons]
    cases h : hildon_touch_selector_get_active_iter s lo with
    | none =>
      have hstep : printLoopStep s (some a) lo = some a := by
        simp [printLoopStep, h]
      rw [hstep, ih (lo + 1) a (Nat.succ_pos lo)]
      have ht : colonTailIdx s lo (n + 1) = "" ++ colonTailIdx s (lo + 1) n := by
        simp [colonTailIdx, activeValue, h]
      rw [ht, String.empty_append]
    | some k =>
      have hstep : printLoopStep s (some a) lo =
          some (a ++ (":" ++ column_text s lo k)) := by
        simp [printLoopStep, h, hlo.ne', g_strconcat2]
      rw [hstep, ih (lo + 1) _ (Nat.succ_pos lo)]
      have ht : colonTailIdx s lo (n + 1) =
          (":" ++ column_text s lo k) ++ colonTailIdx s (lo + 1) n := by
        simp [colonTailIdx, activeValue, h]
      rw [ht]
      simp [String.append_assoc]

theorem colonTailIdx_of_multiple (s : HildonTouchSelector)
    (h : hildon_touch_selector_get_column_selection_mode s =
      HildonTouchSelectorSelectionMode.multiple) :
    ∀ n lo : Nat, colonTailIdx s lo n = "" := by
  intro n
  induction n with
  | zero => intro lo; rfl
  | succ n ih =>
    intro lo
    have h2 : activeValue s lo = none := by
      simp [activeValue, getActiveIter_of_multiple s h lo]
    show (match activeValue s lo with
        | some v => ":" ++ v
        | none => "") ++ colonTailIdx s (lo + 1) n = ""
    rw [h2, ih (lo + 1)]
    rfl

theorem colonJoin_cons_activeValuesFrom (s : HildonTouchSelector) :
    ∀ (n lo : Nat) (v : String),
      colonJoin (v :: activeValuesFrom s lo n) = v ++ colonTailIdx s lo n := by
  intro n
  induction n with
  | zero =>
    intro lo v
    show colonJoin [v] = v ++ colonTailIdx s lo 0
    rw [show colonTailIdx s lo 0 = "" from rfl, String.append_empty]
    rfl
  | succ n ih =>
    intro lo v
    cases h : hildon_touch_selector_get_active_iter s lo with
    | none =>
      have h2 : activeValue s lo = none := by simp [activeValue, h]
      rw [show activeValuesFrom s lo (n + 1) = activeValuesFrom s (lo + 1) n from
        by simp [activeValuesFrom, h2]]
      rw [ih (lo + 1) v]
      rw [show colonTailIdx s lo (n + 1) = "" ++ colonTailIdx s (lo + 1) n from
        by simp [colonTailIdx, h2]]
      rw [String.empty_append]
    | some k =>
      have h2 : activeValue s lo = some (column_text s lo k) := by
        simp [activeValue, h]
      rw [show activeValuesFrom s lo (n + 1) =
          column_text s lo k :: activeValuesFrom s (lo + 1) n from
        by simp [activeValuesFrom, h2]]
      rw [show colonJoin (v :: column_text s lo k :: activeValuesFrom s (lo + 1) n) =
          v ++ ":" ++ colonJoin (column_text s lo k :: activeValuesFrom s (lo + 1) n) from
        rfl]
      rw [ih (lo + 1) (column_text s lo k)]
      rw [show colonTailIdx s lo (n + 1) =
          (":" ++ column_text s lo k) ++ colonTailIdx s (lo + 1) n from
        by simp [colonTailIdx, h2]]
      simp [String.append_assoc]

theorem default_print_func_multiple (s : HildonTouchSelector)
    (hm : hildon_touch_selector_get_column_selection_mode s =
      HildonTouchSelectorSelectionMode.multiple)
    (h0 : 0 < hildon_touch_selector_get_num_columns s) :
    _default_print_func s = some ("(" ++ commaJoin (selected_texts s) ++ ")") := by
  unfold _default_print_func
  rw [if_pos ⟨hm, h0⟩,
    foldl_printLoopStep_some s (hildon_touch_selector_get_num_columns s - 1) 1 _
      Nat.one_pos,
    colonTailIdx_of_multiple s hm _ 1, String.append_empty]

theorem default_print_func_single_gap (s : HildonTouchSelector)
    (hm : hildon_touch_selector_get_column_selection_mode s =
      HildonTouchSelectorSelectionMode.single)
    (h0 : hildon_touch_selector_get_active_iter s 0 = none) :
    _default_print_func s = none := by
  unfold _default_print_func
  rw [if_neg (by simp [hm])]
  rcases Nat.eq_zero_or_pos (hildon_touch_selector_get_num_columns s) with h | h
  · rw [h]
    rfl
  · obtain ⟨m, hm2⟩ : ∃ m, hildon_touch_selector_get_num_columns s = m + 1 :=
      ⟨hildon_touch_selector_get_num_columns s - 1, by omega⟩
    rw [hm2]
    show ((0 :: colIndices 1 m).foldl (printLoopStep s) none) = none
    rw [List.foldl_cons]
    have hstep : printLoopStep s none 0 = none := by simp [printLoopStep, h0]
    rw [hstep]
    exact foldl_printLoopStep_none s m 1 Nat.one_pos

theorem default_print_func_single_active (s : HildonTouchSelector) (k : Nat)
    (hm : hildon_touch_selector_get_column_selection_mode s =
      HildonTouchSelectorSelectionMode.single)
    (hk : hildon_touch_selector_get_active_iter s 0 = some k) :
    _default_print_func s = some (colonJoin (activeValues s)) := by
  have h0 : 0 < hildon_touch_selector_get_num_columns s :=
    getActiveIter_some_imp_lt s 0 k hk
  unfold _default_print_func
  rw [if_neg (by simp [hm])]
  obtain ⟨m, hm2⟩ : ∃ m, hildon_touch_selector_get_num_columns s = m + 1 :=
    ⟨hildon_touch_selector_get_num_columns s - 1, by omega⟩
  rw [hm2]
  show ((0 :: colIndices 1 m).foldl (printLoopStep s) none) = _
  rw [List.foldl_cons]
  have hstep : printLoopStep s none 0 = some (column_text s 0 k) := by
    simp [printLoopStep, hk]
  rw [hstep, foldl_printLoopStep_some s m 1 _ Nat.one_pos]
  congr 1
  have hav : activeValues s = column_text s 0 k :: activeValuesFrom s 1 m := by
    unfold activeValues
    rw [hm2]
    have h2 : activeValue s 0 = some (column_text s 0 k) := by
      simp [activeValue, hk]
    simp [activeValuesFrom, h2]
  rw [hav, colonJoin_cons_activeValuesFrom s m 1 (column_text s 0 k)]

theorem list_eraseIdx_length {α : Type} :
    ∀ (l : List α) (i : Nat), i < l.length → (l.eraseIdx i).length = l.length - 1 := by
  intro l
  induction l with
  | nil => intro i h; simp at h
  | cons a t ih =>
    intro i h
    cases i with
    | zero => simp [List.eraseIdx]
    | succ i =>
      have ht : i < t.length := by simpa using h
      show (a :: t.eraseIdx i).length = t.length + 1 - 1
      simp [ih i ht]
      omega

theorem list_get?_eraseIdx_lt {α : Type} :
    ∀ (l : List α) (i j : Nat), j < i → (l.eraseIdx i).get? j = l.get? j := by
  intro l
  induction l with
  | nil => intro i j _; rfl
  | cons a t ih =>
    intro i j h
    cases i with
    | zero => omega
    | succ i =>
      cases j with
      | zero => rfl
      | succ j =>
        show (t.eraseIdx i).get? j = t.get? j
        exact ih i j (by omega)

theorem list_get?_eraseIdx_ge {α : Type} :
    ∀ (l : List α) (i j : Nat), i ≤ j → (l.eraseIdx i).get? j = l.get? (j + 1) := by
  intro l
  induction l with
  | nil => intro i j _; rfl
  | cons a t ih =>
    intro i j h
    cases i with
    | zero => rfl
    | succ i =>
      cases j with
      | zero => omega
      | succ j =>
        show (t.eraseIdx i).get? j = t.get? (j + 1)
        exact ih i j (by omega)

theorem list_get?_set_self {α : Type} :
    ∀ (l : List α) (i : Nat) (a : α), i < l.length → (l.set i a).get? i = some a := by
  intro l
  induction l with
  | nil => intro i a h; simp at h
  | cons b t ih =>
    intro i a h
    cases i with
    | zero => rfl
    | succ i =>
      show (t.set i a).get? i = some a
      exact ih i a (by simpa using h)

theorem append_many_num (ms : List (List String)) :
    ∀ s : HildonTouchSelector,
      (append_many s ms).columns.length = s.columns.length + ms.length := by
  induction ms with
  | nil => intro s; rfl
  | cons m ms ih =>
    intro s
    show (append_many (hildon_touch_selector_append_column s m).1 ms).columns.length = _
    rw [ih]
    show (s.columns ++ [_create_new_column m]).length + ms.length = _
    simp
    omega

theorem range_filter_eq_single (r : Nat) :
    ∀ n : Nat, r < n →
      (List.range n).filter (fun k => [r].contains k) = [r] := by
  intro n
  induction n with
  | zero => intro h; omega
  | succ n ih =>
    intro h
    rw [List.range_succ, List.filter_append]
    by_cases hr : r < n
    · rw [ih hr]
      have hnr : ¬(n = r) := by omega
      simp [List.filter, List.contains, hnr]
    · have hrn : r = n := by omega
      subst hrn
      have hnil : (List.range r).filter (fun k => [r].contains k) = [] := by
        rw [List.filter_eq_nil_iff]
        intro a ha
        have : a < r := List.mem_range.mp ha
        simp [List.contains]
        omega
      rw [hnil]
      simp [List.filter, List.contains]

theorem mode_after_set (s : HildonTouchSelector) (col : Nat)
    (c c' : SelectorColumn) (hc : s.columns.get? col = some c)
    (hm : c'.smode = c.smode) :
    hildon_touch_selector_get_column_selection_mode
      { s with columns := s.columns.set col c' } =
    hildon_touch_selector_get_column_selection_mode s := by
  obtain ⟨cols, pf⟩ := s
  simp only at hc ⊢
  cases cols with
  | nil => simp at hc
  | cons a t =>
    cases col with
    | zero =>
      have hac : a = c := by simpa using hc
      subst hac
      show (if c'.smode = GtkSelectionMode.multiple then
          HildonTouchSelectorSelectionMode.multiple else .single) =
        (if a.smode = GtkSelectionMode.multiple then
          HildonTouchSelectorSelectionMode.multiple else .single)
      rw [hm]
    | succ n => rfl

theorem centerWalk_single_eq (s : HildonTouchSelector) :
    ∀ (cols : List SelectorColumn) (i : Nat),
      centerWalk s HildonTouchSelectorSelectionMode.single i cols =
        (colIndices i cols.length).filterMap (centerPair s) := by
  intro cols
  induction cols with
  | nil => intro i; rfl
  | cons c rest ih =>
    intro i
    have hun : centerWalk s HildonTouchSelectorSelectionMode.single i (c :: rest) =
        (match hildon_touch_selector_get_active_iter s i with
         | some k =>
           (i, k) :: centerWalk s HildonTouchSelectorSelectionMode.single (i + 1) rest
         | none => centerWalk s HildonTouchSelectorSelectionMode.single (i + 1) rest) := by
      show (if i = 0 ∧ HildonTouchSelectorSelectionMode.single =
          HildonTouchSelectorSelectionMode.multiple then ([] : List (Nat × Nat))
        else _) = _
      rw [if_neg (by simp)]
    rw [hun]
    show _ = List.filterMap (centerPair s) (i :: colIndices (i + 1) rest.length)
    rw [List.filterMap_cons]
    cases h : hildon_touch_selector_get_active_iter s i with
    | some k => simp [centerPair, h, ih (i + 1)]
    | none => simp [centerPair, h, ih (i + 1)]

theorem centerWalk_multiple_eq (s : HildonTouchSelector) :
    ∀ cols : List SelectorColumn,
      centerWalk s HildonTouchSelectorSelectionMode.multiple 0 cols = [] := by
  intro cols
  cases cols with
  | nil => rfl
  | cons c rest =>
    show (if 0 = 0 ∧ HildonTouchSelectorSelectionMode.multiple =
        HildonTouchSelectorSelectionMode.multiple then ([] : List (Nat × Nat))
      else _) = []
    rw [if_pos ⟨rfl, rfl⟩]

theorem set_mode_tail (s : HildonTouchSelector)
    (m : HildonTouchSelectorSelectionMode) :
    ∀ j : Nat, 1 ≤ j →
      (hildon_touch_selector_set_column_selection_mode s m).columns.get? j =
        s.columns.get? j := by
  intro j hj
  obtain ⟨cols, pf⟩ := s
  cases cols with
  | nil => rfl
  | cons c rest =>
    obtain ⟨j', rfl⟩ : ∃ j', j = j' + 1 := ⟨j - 1, by omega⟩
    rfl

/-- C1, counterexample to the claim as stated: a single-mode selector in
which column 0 has no active value but column 1 has active value B.
The claim's description (spec_described_output) yields B, but
get_current_text returns NULL, because the code concatenates the column-1
value onto a NULL accumulator through g_strconcat, which returns NULL. -/
theorem claim_C1_counterexample :
    hildon_touch_selector_get_current_text sGapZero = none ∧
    spec_described_output sGapZero = "B" ∧
    hildon_touch_selector_get_current_text sGapZero ≠
      some (spec_described_output sGapZero) := by
  refine ⟨by decide, by decide, by decide⟩

/-- C1 (amended): for a selector using the default print formatter:
in multiple mode with at least one column, get_current_text is exactly
the first column's selected values comma-joined inside parentheses (the
remaining columns contribute nothing, since get_active_iter requires
single mode); in single mode, when column 0 has an active value the
result is the active values of all columns joined by colons, and when
column 0 has no active value the result is NULL regardless of later
columns. The claim's three round-trip examples hold. -/
theorem claim_C1 (s : HildonTouchSelector) (hpf : s.print_func = none) :
    (hildon_touch_selector_get_column_selection_mode s =
        HildonTouchSelectorSelectionMode.multiple →
      0 < hildon_touch_selector_get_num_columns s →
      hildon_touch_selector_get_current_text s =
        some ("(" ++ commaJoin (selected_texts s) ++ ")"))
  ∧ (hildon_touch_selector_get_column_selection_mode s =
        HildonTouchSelectorSelectionMode.single →
      (∀ k, hildon_touch_selector_get_active_iter s 0 = some k →
        hildon_touch_selector_get_current_text s =
          some (colonJoin (activeValues s)))
      ∧ (hildon_touch_selector_get_active_iter s 0 = none →
        hildon_touch_selector_get_current_text s = none))
  ∧ hildon_touch_selector_get_current_text sBob = some "Bob"
  ∧ hildon_touch_selector_get_current_text sRedLarge = some "Red:Large"
  ∧ hildon_touch_selector_get_current_text sABC = some "(A,B,C)" := by
  have hct : hildon_touch_selector_get_current_text s = _default_print_func s := by
    unfold hildon_touch_selector_get_current_text
    rw [hpf]
  refine ⟨?_, ?_, by decide, by decide, by decide⟩
  · intro hm h0
    rw [hct]
    exact default_print_func_multiple s hm h0
  · intro hm
    constructor
    · intro k hk
      rw [hct]
      exact default_print_func_single_active s k hm hk
    · intro h0
      rw [hct]
      exact default_print_func_single_gap s hm h0

/-- C1 witness: the amended claim applied to the concrete selector sBob. -/
theorem claim_C1_witness :
    hildon_touch_selector_get_current_text sBob = some "Bob" :=
  (claim_C1 sBob rfl).2.2.1

/-- C2: has_multiple_selection is true exactly when the column count
exceeds 1 or the selection mode is multiple (a selector with zero
columns reads mode SINGLE, hence false); a fresh text selector gives
false, and appending a second column flips it to true. -/
theorem claim_C2 (s : HildonTouchSelector) :
    (hildon_touch_selector_has_multiple_selection s = true ↔
      (1 < hildon_touch_selector_get_num_columns s ∨
        hildon_touch_selector_get_column_selection_mode s =
          HildonTouchSelectorSelectionMode.multiple))
  ∧ hildon_touch_selector_has_multiple_selection hildon_touch_selector_new_text =
      false
  ∧ hildon_touch_selector_has_multiple_selection
      (hildon_touch_selector_append_text_column hildon_touch_selector_new_text
        ["x"]).1 = true := by
  refine ⟨?_, by decide, by decide⟩
  unfold hildon_touch_selector_has_multiple_selection
    _hildon_touch_selector_has_multiple_selection
  simp

/-- C3, counterexample to the claim as stated: in a three-column
single-mode selector whose column 0 has no active selection while
columns 1 and 2 have active values B and C, the gap is not tolerated:
instead of the separator-clean join B:C the whole output becomes NULL. -/
theorem claim_C3_counterexample :
    hildon_touch_selector_get_active_iter sGapThree 0 = none ∧
    hildon_touch_selector_get_active_iter sGapThree 1 = some 0 ∧
    hildon_touch_selector_get_active_iter sGapThree 2 = some 0 ∧
    spec_described_output sGapThree = "B:C" ∧
    hildon_touch_selector_get_current_text sGapThree = none := by
  refine ⟨by decide, by decide, by decide, by decide, by decide⟩

/-- C3 (amended): with the default formatter in single mode, a column
with no active value contributes nothing: the output is the colon-join
of exactly the active values, with one colon between consecutive values
and none leading or trailing (separator-clean, given non-empty
colon-free values) — provided column 0 itself has an active value; when
the gap is at column 0, the whole result is NULL and the later columns'
values are lost. -/
theorem claim_C3 (s : HildonTouchSelector) (j : Nat) (hpf : s.print_func = none)
    (hm : hildon_touch_selector_get_column_selection_mode s =
      HildonTouchSelectorSelectionMode.single)
    (hgap : hildon_touch_selector_get_active_iter s j = none) :
    activeValue s j = none
  ∧ (hildon_touch_selector_get_active_iter s 0 = none →
      hildon_touch_selector_get_current_text s = none)
  ∧ (∀ k, hildon_touch_selector_get_active_iter s 0 = some k →
      hildon_touch_selector_get_current_text s =
        some (colonJoin (activeValues s))
      ∧ ((∀ v ∈ activeValues s, v ≠ "" ∧ ':' ∉ v.data) →
          separatorClean (colonJoin (activeValues s)) = true)) := by
  have hct : hildon_touch_selector_get_current_text s = _default_print_func s := by
    unfold hildon_touch_selector_get_current_text
    rw [hpf]
  refine ⟨by simp [activeValue, hgap], ?_, ?_⟩
  · intro h0
    rw [hct]
    exact default_print_func_single_gap s hm h0
  · intro k hk
    constructor
    · rw [hct]
      exact default_print_func_single_active s k hm hk
    · intro hvals
      rcases separatorClean_colonJoin (activeValues s) hvals with ⟨h1, h2, h3⟩
      simp [separatorClean, h1, h2, h3]

/-- C3 witness: the amended claim applied to the concrete selector
sMidGap, whose column 2 has no active value. -/
theorem claim_C3_witness :
    hildon_touch_selector_get_current_text sMidGap =
      some (colonJoin (activeValues sMidGap)) ∧
    separatorClean (colonJoin (activeValues sMidGap)) = true :=
  ⟨((claim_C3 sMidGap 2 rfl (by decide) (by decide)).2.2 0 (by decide)).1,
   ((claim_C3 sMidGap 2 rfl (by decide) (by decide)).2.2 0 (by decide)).2 (by decide)⟩

/-- C4, counterexample to the claim as stated: on a two-column selector
with both columns in single mode, set_column_selection_mode(multiple)
leaves column 1 in single mode — the mode is not applied uniformly to
every column. -/
theorem claim_C4_counterexample :
    ((hildon_touch_selector_set_column_selection_mode sTwoSingle
        HildonTouchSelectorSelectionMode.multiple).columns.get? 1).map
      SelectorColumn.smode = some GtkSelectionMode.single ∧
    ¬(((hildon_touch_selector_set_column_selection_mode sTwoSingle
        HildonTouchSelectorSelectionMode.multiple).columns.get? 1).map
      SelectorColumn.smode = some GtkSelectionMode.multiple) := by
  refine ⟨by decide, by decide⟩

/-- C4 (amended): for a selector with at least one column whose column 0
has a non-empty model, set_column_selection_mode(m) applies m to column 0
only and re-selects column 0's first row; the selector-level mode then
reads back as m, and every column with index >= 1 is left untouched. -/
theorem claim_C4 (s : HildonTouchSelector) (m : HildonTouchSelectorSelectionMode)
    (c : SelectorColumn) (hc : s.columns.get? 0 = some c) (hne : c.model ≠ []) :
    (hildon_touch_selector_set_column_selection_mode s m).columns.get? 0 =
      some { c with smode := modeToGtk m, selected := [0] }
  ∧ hildon_touch_selector_get_column_selection_mode
      (hildon_touch_selector_set_column_selection_mode s m) = m
  ∧ ∀ j, 1 ≤ j →
      (hildon_touch_selector_set_column_selection_mode s m).columns.get? j =
        s.columns.get? j := by
  obtain ⟨cols, pf⟩ := s
  cases cols with
  | nil => simp at hc
  | cons a t =>
    have hac : a = c := by simpa using hc
    subst hac
    have hemp : a.model.isEmpty = false := by
      cases hm2 : a.model with
      | nil => exact absurd hm2 hne
      | cons x xs => rfl
    refine ⟨?_, ?_, ?_⟩
    · simp [hildon_touch_selector_set_column_selection_mode, hemp]
    · simp only [hildon_touch_selector_set_column_selection_mode]
      show (if (modeToGtk m) = GtkSelectionMode.multiple then
          HildonTouchSelectorSelectionMode.multiple else .single) = m
      cases m <;> rfl
    · intro j hj
      obtain ⟨j', rfl⟩ : ∃ j', j = j' + 1 := ⟨j - 1, by omega⟩
      rfl

/-- C4 witness: the amended claim applied to the concrete two-column
selector sTwoSingle with mode multiple. -/
theorem claim_C4_witness :
    (hildon_touch_selector_set_column_selection_mode sTwoSingle
        HildonTouchSelectorSelectionMode.multiple).columns.get? 0 =
      some { model := ["A"], smode := GtkSelectionMode.multiple,
             selected := [0] } ∧
    hildon_touch_selector_get_column_selection_mode
      (hildon_touch_selector_set_column_selection_mode sTwoSingle
        HildonTouchSelectorSelectionMode.multiple) =
      HildonTouchSelectorSelectionMode.multiple :=
  ⟨(claim_C4 sTwoSingle HildonTouchSelectorSelectionMode.multiple
      ⟨["A"], GtkSelectionMode.single, [0]⟩ rfl (by decide)).1,
   (claim_C4 sTwoSingle HildonTouchSelectorSelectionMode.multiple
      ⟨["A"], GtkSelectionMode.single, [0]⟩ rfl (by decide)).2.1⟩

/-- C5, counterexample to the claim as stated: in a multiple-mode
selector whose column 1 has exactly one selected row, the deferred
centering callback centers nothing at all — column 1 is not scrolled,
because the walk breaks at column 0 when the mode is multiple (and
get_active_iter fails in multiple mode anyway). -/
theorem claim_C5_counterexample :
    (sMultiTwo.columns.get? 1).map SelectorColumn.selected = some [0] ∧
    hildon_touch_selector_get_column_selection_mode sMultiTwo =
      HildonTouchSelectorSelectionMode.multiple ∧
    _hildon_touch_selector_center_on_selected_items sMultiTwo = [] ∧
    ¬((1, 0) ∈ _hildon_touch_selector_center_on_selected_items sMultiTwo) := by
  refine ⟨by decide, by decide, by decide, by decide⟩

/-- C5 (amended): when the deferred centering callback runs, in multiple
mode it scrolls no column at all (the loop breaks at column 0); in
single mode it scrolls every column whose get_active_iter succeeds to
that column's active row. -/
theorem claim_C5 (s : HildonTouchSelector) :
    (hildon_touch_selector_get_column_selection_mode s =
        HildonTouchSelectorSelectionMode.multiple →
      _hildon_touch_selector_center_on_selected_items s = [])
  ∧ (hildon_touch_selector_get_column_selection_mode s =
        HildonTouchSelectorSelectionMode.single →
      _hildon_touch_selector_center_on_selected_items s = centerSpecList s) := by
  constructor
  · intro hm
    unfold _hildon_touch_selector_center_on_selected_items
    rw [hm]
    exact centerWalk_multiple_eq s s.columns
  · intro hm
    unfold _hildon_touch_selector_center_on_selected_items
    rw [hm]
    exact centerWalk_single_eq s s.columns 0

/-- C5 witness: the amended claim applied to the concrete selectors
sMultiTwo (multiple mode, centers nothing) and sRedLarge (single mode,
centers both columns). -/
theorem claim_C5_witness :
    _hildon_touch_selector_center_on_selected_items sMultiTwo = [] ∧
    _hildon_touch_selector_center_on_selected_items sRedLarge =
      centerSpecList sRedLarge :=
  ⟨(claim_C5 sMultiTwo).1 (by decide), (claim_C5 sRedLarge).2 (by decide)⟩

/-- C6: appending N columns to an empty selector makes get_num_columns
return N; removing one in-range column succeeds, drops exactly that
element, decrements the count by one, keeps the columns before the index
and shifts every later column's index down by one. (The bound on the
column count reflects the 32-bit guint used by g_slist_nth_data.) -/
theorem claim_C6 :
    (∀ models : List (List String),
      hildon_touch_selector_get_num_columns
        (append_many hildon_touch_selector_new models) = models.length)
  ∧ (∀ (s : HildonTouchSelector) (i : Nat),
      i < hildon_touch_selector_get_num_columns s →
      hildon_touch_selector_get_num_columns s < 4294967296 →
      hildon_touch_selector_remove_column s (i : Int) =
        some ({ s with columns := s.columns.eraseIdx i }, true) ∧
      (s.columns.eraseIdx i).length = s.columns.length - 1 ∧
      (∀ j, j < i → (s.columns.eraseIdx i).get? j = s.columns.get? j) ∧
      (∀ j, i ≤ j → (s.columns.eraseIdx i).get? j = s.columns.get? (j + 1))) := by
  constructor
  · intro models
    show (append_many hildon_touch_selector_new models).columns.length = _
    rw [append_many_num]
    simp [hildon_touch_selector_new]
  · intro s i hi hbound
    have hi' : i < s.columns.length := hi
    refine ⟨?_, list_eraseIdx_length s.columns i hi',
      fun j hj => list_get?_eraseIdx_lt s.columns i j hj,
      fun j hj => list_get?_eraseIdx_ge s.columns i j hj⟩
    unfold hildon_touch_selector_remove_column
    rw [if_neg (by omega)]
    have hidx : ((i : Int) % 4294967296).toNat = i := by omega
    rw [hidx]
    obtain ⟨c, hc⟩ : ∃ c, s.columns.get? i = some c := by
      cases hget : s.columns.get? i with
      | some c => exact ⟨c, rfl⟩
      | none =>
        rw [List.get?_eq_none] at hget
        omega
    simp only [hc]

/-- C7: the claim is right and the code is wrong. remove_column guards
only column < num_columns, so a negative index passes the guard; the
guint cast then makes g_slist_nth_data return NULL, and the code
dereferences it (a crash, modelled as none) instead of returning FALSE
with the column list unchanged. An index >= the column count correctly
fails with FALSE and no change, and an in-range index removes the
column and returns TRUE. -/
theorem claim_C7_code_bug :
    hildon_touch_selector_remove_column sOneCol (-1) = none ∧
    hildon_touch_selector_remove_column sOneCol 1 = some (sOneCol, false) ∧
    hildon_touch_selector_remove_column sOneCol 0 =
      some ({ sOneCol with columns := [] }, true) :=
  ⟨rfl, rfl, rfl⟩

/-- C8: in single selection mode (the selector-level mode is SINGLE and
the addressed column's own tree selection is not in MULTIPLE mode),
set_active_iter on a valid column index and a row of that column's
model, followed by get_active_iter on the same column, succeeds and
yields exactly the row just set. -/
theorem claim_C8 (s : HildonTouchSelector) (col row : Nat) (c : SelectorColumn)
    (hc : s.columns.get? col = some c)
    (hm : hildon_touch_selector_get_column_selection_mode s =
      HildonTouchSelectorSelectionMode.single)
    (hcm : c.smode ≠ GtkSelectionMode.multiple)
    (hrow : row < c.model.length) :
    hildon_touch_selector_get_active_iter
      (hildon_touch_selector_set_active_iter s col row) col = some row := by
  have hlt : col < s.columns.length := by
    obtain ⟨h, _⟩ := List.get?_eq_some.mp hc
    exact h
  have hset : hildon_touch_selector_set_active_iter s col row =
      { s with columns := s.columns.set col { c with selected := [row] } } := by
    unfold hildon_touch_selector_set_active_iter
    rw [hc]
  rw [hset]
  unfold hildon_touch_selector_get_active_iter
  rw [mode_after_set s col c { c with selected := [row] } hc rfl, hm, if_pos rfl]
  have hcols : ({ s with
      columns := s.columns.set col { c with selected := [row] } } :
      HildonTouchSelector).columns = s.columns.set col { c with selected := [row] } :=
    rfl
  rw [hcols, list_get?_set_self s.columns col _ hlt]
  show gtk_tree_selection_get_selected { c with selected := [row] } = some row
  unfold gtk_tree_selection_get_selected
  rw [if_neg hcm]
  unfold selectedInOrder
  show ((List.range c.model.length).filter (fun k => [row].contains k)).head? =
    some row
  rw [range_filter_eq_single row c.model.length hrow]
  rfl

/-- C8 witness: the claim applied to the concrete one-column selector
sAliceBob, setting the active row to 1 (Bob) and reading it back. -/
theorem claim_C8_witness :
    hildon_touch_selector_get_active_iter
      (hildon_touch_selector_set_active_iter sAliceBob 0 1) 0 = some 1 :=
  claim_C8 sAliceBob 0 1 ⟨["Alice", "Bob"], GtkSelectionMode.browse, [0]⟩ rfl
    (by decide) (by decide) (by decide)

/-- C9: the claim is right and the code is wrong. hildon_touch_selector_map
schedules the centering callback with g_timeout_add, storing neither the
source id nor a reference, nothing removes the source on destruction,
and the callback body contains no liveness check: fired on a live
selector it centers (here column 0 to row 1), fired after the selector
was destroyed it dereferences the dangling pointer (undefined behaviour,
modelled as none) instead of detecting the destruction and doing
nothing. -/
theorem claim_C9_code_bug :
    g_timeout_callback_fires (some sMapped) = some [(0, 1)] ∧
    g_timeout_callback_fires none = none :=
  ⟨rfl, rfl⟩

/-- C10: set_column_selection_mode touches only the first column: on a
selector with at least two columns, every column with index >= 1 keeps
its entire state (mode and selected rows), column 0 keeps its model, and
the column count is unchanged. -/
theorem claim_C10 (s : HildonTouchSelector)
    (m : HildonTouchSelectorSelectionMode)
    (h2 : 2 ≤ hildon_touch_selector_get_num_columns s) :
    (∀ j, 1 ≤ j →
      (hildon_touch_selector_set_column_selection_mode s m).columns.get? j =
        s.columns.get? j)
  ∧ ((hildon_touch_selector_set_column_selection_mode s m).columns.get? 0).map
      SelectorColumn.model = (s.columns.get? 0).map SelectorColumn.model
  ∧ hildon_touch_selector_get_num_columns
      (hildon_touch_selector_set_column_selection_mode s m) =
    hildon_touch_selector_get_num_columns s := by
  refine ⟨set_mode_tail s m, ?_, ?_⟩
  · obtain ⟨cols, pf⟩ := s
    cases cols with
    | nil => rfl
    | cons c rest => rfl
  · obtain ⟨cols, pf⟩ := s
    cases cols with
    | nil => rfl
    | cons c rest => rfl

/-- C10 witness: the claim applied to the concrete two-column selector
sTwoSingle with mode multiple; column 1 is untouched. -/
theorem claim_C10_witness :
    (hildon_touch_selector_set_column_selection_mode sTwoSingle
        HildonTouchSelectorSelectionMode.multiple).columns.get? 1 =
      sTwoSingle.columns.get? 1 :=
  (claim_C10 sTwoSingle HildonTouchSelectorSelectionMode.multiple (by decide)).1
    1 (by decide)
